import Mathlib

/-
Verification of the wallet storage engine of BismuthRPC
(src/RPCServer/rpcwallet.py) against its specification.

The Python module is shallowly embedded: the filesystem is an association
list from full file paths to parsed account records, the in-memory reverse
index and the persisted rindex.json content are association lists from
address to account name, and each wallet method becomes a pure function
from a wallet state to an Except value.  A raised Python exception is an
Except.error; because exceptions abort the method, an error result carries
no successor state, mirroring the fact that statements after the raise do
not run.
-/

namespace RPCWallet

/-- Parsed content of one account file: the JSON object with keys
encrypted and addresses, where each address entry is a JSON list of
strings (rpcwallet.py stores the list produced by the key object). -/
structure AccountRecord where
  encrypted : Bool
  addresses : List (List String)
deriving Repr, DecidableEq

/-- Modelled from the spec: the external rpckeys.Key object (KeyProvider)
is not under src/.  The spec says KeyProvider.generate() yields a fresh
(address, private_key, public_key) triple and that the account record
schema stores each entry as the list [address, private_key, public_key]. -/
structure Key where
  address : String
  private_key : String
  public_key : String
deriving Repr, DecidableEq

/-- Modelled from the spec: key.as_list is the stored form of the entry,
the list [address, private_key, public_key] from the account record
schema of the spec. -/
def Key.as_list (k : Key) : List String :=
  [k.address, k.private_key, k.public_key]

/-- State of one wallet directory: the account files on disk (full path
to parsed record, excluding the two index files which are modelled by the
other fields), the in-memory reverse index self.address_to_account, and
the persisted content of rindex.json. -/
structure WalletState where
  files : List (String × AccountRecord)
  address_to_account : List (String × String)
  rindex_file : List (String × String)
deriving Repr, DecidableEq

/-- The custom exceptions of rpcwallet.py (InvalidAccountName,
InvalidPath, UnknownnAddress, spelling as in the source) plus IndexError,
which models an uncaught Python builtin indexing exception. -/
inductive WErr where
  | InvalidAccountName
  | InvalidPath
  | UnknownnAddress
  | IndexError
deriving Repr, DecidableEq

/-- Lookup of a path in the on-disk file map (os.path.isfile plus read). -/
def fsLookup (files : List (String × AccountRecord)) (p : String) :
    Option AccountRecord :=
  (files.find? (fun kv => kv.1 = p)).map (fun kv => kv.2)

/-- Writing a file: full overwrite when the path exists, append otherwise. -/
def fsWrite (files : List (String × AccountRecord)) (p : String)
    (r : AccountRecord) : List (String × AccountRecord) :=
  if files.any (fun kv => kv.1 = p) then
    files.map (fun kv => if kv.1 = p then (p, r) else kv)
  else files ++ [(p, r)]

/-- Python dict lookup self.address_to_account[address] as an Option. -/
def ridxLookup (m : List (String × String)) (k : String) : Option String :=
  (m.find? (fun kv => kv.1 = k)).map (fun kv => kv.2)

/-- Python dict assignment self.address_to_account[k] = v: update in
place when the key is present, append otherwise. -/
def ridxInsert (m : List (String × String)) (k v : String) :
    List (String × String) :=
  if m.any (fun kv => kv.1 = k) then
    m.map (fun kv => if kv.1 = k then (k, v) else kv)
  else m ++ [(k, v)]

/-- Membership test of the regex character class [^a-zA-Z0-9+/]: true
when c is in the permitted set a-z, A-Z, 0-9, plus or slash.  Note that
the source regex escapes and therefore permits the slash character. -/
def isB64Char (c : Char) : Bool :=
  (Char.ofNat 97 ≤ c && c ≤ Char.ofNat 122) ||
  (Char.ofNat 65 ≤ c && c ≤ Char.ofNat 90) ||
  (Char.ofNat 48 ≤ c && c ≤ Char.ofNat 57) ||
  c = Char.ofNat 43 || c = Char.ofNat 47

/-- Wallet._check_account_name: the empty string is accepted (default
account); otherwise the length must be 2 to 128 and every character must
be in the class of isB64Char, else InvalidAccountName is raised. -/
def check_account_name (account : String) : Except WErr Unit :=
  if account = "" then Except.ok ()
  else if account.length < 2 || 128 < account.length then
    Except.error WErr.InvalidAccountName
  else if account.toList.any (fun c => !(isB64Char c)) then
    Except.error WErr.InvalidAccountName
  else Except.ok ()

/-- File path used by Wallet._get_account: the empty name and the literal
name default map to default.json at the store root, every other name maps
to the sharded path built from its first two characters. -/
def get_account_fname (wpath account : String) : String :=
  if account = "" || account = "default" then wpath ++ "/default.json"
  else wpath ++ "/" ++ account.take 2 ++ "/" ++ account ++ ".json"

/-- File path used by Wallet._save_account: only the empty name maps to
default.json; the literal name default takes the sharded branch. -/
def save_account_fname (wpath account : String) : String :=
  if account = "" then wpath ++ "/default.json"
  else wpath ++ "/" ++ account.take 2 ++ "/" ++ account ++ ".json"

/-- Wallet._save_rindex: persist the in-memory reverse index to
rindex.json. -/
def save_rindex (s : WalletState) : WalletState :=
  { s with rindex_file := s.address_to_account }

/-- Wallet._get_account: validate the name, resolve the read path; when
the file is absent, generate a key (freshKey models self.key.generate()),
write the new one-entry record, register the address in the reverse index
and persist it; when present, read and return the record. -/
def _get_account (wpath : String) (freshKey : Key) (account : String)
    (s : WalletState) : Except WErr (AccountRecord × WalletState) := do
  let _ ← check_account_name account
  let fname := get_account_fname wpath account
  match fsLookup s.files fname with
  | some res => Except.ok (res, s)
  | none =>
    let res : AccountRecord :=
      { encrypted := false, addresses := [freshKey.as_list] }
    let s1 : WalletState := { s with files := fsWrite s.files fname res }
    let s2 : WalletState :=
      { s1 with address_to_account :=
          ridxInsert s1.address_to_account freshKey.address account }
    Except.ok (res, save_rindex s2)

/-- Wallet._save_account: validate the name, resolve the save path (note
the missing default alias compared to _get_account) and overwrite the
file with the given record. -/
def _save_account (wpath : String) (account_dict : AccountRecord)
    (account : String) (s : WalletState) : Except WErr WalletState := do
  let _ ← check_account_name account
  let fname := save_account_fname wpath account
  Except.ok { s with files := fsWrite s.files fname account_dict }

/-- Wallet.get_account_address: load or create the account, then evaluate
account.addresses[0][0]; either indexing step raises an uncaught
IndexError when the list is empty. -/
def get_account_address (wpath : String) (freshKey : Key)
    (anaccount : String) (s : WalletState) :
    Except WErr (String × WalletState) := do
  let (account, s1) ← _get_account wpath freshKey anaccount s
  match account.addresses.head? with
  | none => Except.error WErr.IndexError
  | some addresses =>
    match addresses.head? with
    | none => Except.error WErr.IndexError
    | some a => Except.ok (a, s1)

/-- Wallet.get_account: dict lookup in the in-memory reverse index, with
every failure converted to UnknownnAddress by the bare except. -/
def get_account (a2a : List (String × String)) (address : String) :
    Except WErr String :=
  match ridxLookup a2a address with
  | some name => Except.ok name
  | none => Except.error WErr.UnknownnAddress

/-- Linear scan of the address entries of a record for keys[0] == address,
as in the loop of Wallet._get_keys_for_address: keys[0] on an empty entry
raises (the caller catches everything as UnknownnAddress), a missing match
raises UnknownnAddress. -/
def find_keys (address : String) :
    List (List String) → Except WErr (List String)
  | [] => Except.error WErr.UnknownnAddress
  | keys :: rest =>
    match keys.head? with
    | none => Except.error WErr.UnknownnAddress
    | some a =>
      if a = address then Except.ok keys else find_keys address rest

/-- Wallet._get_keys_for_address: resolve the account via the reverse
index, load its record, scan for the entry of the address; the bare
except turns every failure into UnknownnAddress. -/
def _get_keys_for_address (wpath : String) (freshKey : Key)
    (address : String) (s : WalletState) :
    Except WErr (List String × WalletState) :=
  match ridxLookup s.address_to_account address with
  | none => Except.error WErr.UnknownnAddress
  | some acct =>
    match _get_account wpath freshKey acct s with
    | Except.error _ => Except.error WErr.UnknownnAddress
    | Except.ok (account, s1) =>
      match find_keys address account.addresses with
      | Except.error e => Except.error e
      | Except.ok keys => Except.ok (keys, s1)

/-- Wallet.dump_privkey: return keys[2] of the entry found for the
address (an uncaught IndexError when the entry is shorter). -/
def dump_privkey (wpath : String) (freshKey : Key) (address : String)
    (s : WalletState) : Except WErr (String × WalletState) := do
  let (keys, s1) ← _get_keys_for_address wpath freshKey address s
  match keys.get? 2 with
  | none => Except.error WErr.IndexError
  | some v => Except.ok (v, s1)

/-- Wallet.get_new_address: load or create the account (k1 models the key
generated on creation), generate a new key k2, append its entry, save the
record through _save_account, register k2.address in the reverse index,
persist the index and return the new address. -/
def get_new_address (wpath : String) (k1 k2 : Key) (anaccount : String)
    (s : WalletState) : Except WErr (String × WalletState) := do
  let (account_dict, s1) ← _get_account wpath k1 anaccount s
  let account_dict2 : AccountRecord :=
    { account_dict with addresses := account_dict.addresses ++ [k2.as_list] }
  let s2 ← _save_account wpath account_dict2 anaccount s1
  let s3 : WalletState :=
    { s2 with address_to_account :=
        ridxInsert s2.address_to_account k2.address anaccount }
  Except.ok (k2.address, save_rindex s3)

/-- The list comprehension of Wallet.get_addresses_by_account: address[0]
for every entry, raising IndexError at the first empty entry. -/
def heads_of : List (List String) → Except WErr (List String)
  | [] => Except.ok []
  | a :: rest =>
    match a.head? with
    | none => Except.error WErr.IndexError
    | some h => do
      let t ← heads_of rest
      Except.ok (h :: t)

/-- Wallet.get_addresses_by_account: load or create the account and
project the first component of each address entry. -/
def get_addresses_by_account (wpath : String) (freshKey : Key)
    (anaccount : String) (s : WalletState) :
    Except WErr (List String × WalletState) := do
  let (account, s1) ← _get_account wpath freshKey anaccount s
  let hs ← heads_of account.addresses
  Except.ok (hs, s1)

/-- Final path component, as os.walk hands the bare file name to the body
of _parse_accounts. -/
def basename (p : String) : String :=
  (p.splitOn "/").getLastD p

/-- os.path.splitext on a bare file name: split at the last dot. -/
def splitext (afile : String) : String × String :=
  let parts := afile.splitOn "."
  match parts with
  | [] => (afile, "")
  | [x] => (x, "")
  | _ =>
    (String.intercalate "." parts.dropLast, "." ++ parts.getLastD "")

/-- Wallet._parse_accounts: every .json file except the two index files
yields (account name, record), the name being the base name of the file
with the literal name default normalised to the empty string. -/
def parse_accounts (files : List (String × AccountRecord)) :
    List (String × AccountRecord) :=
  files.filterMap (fun kv =>
    let afile := basename kv.1
    if (splitext afile).2.toLower ≠ ".json" then none
    else if afile.toLower = "index.json" || afile.toLower = "rindex.json" then
      none
    else
      let account := (splitext afile).1
      let account := if account = "default" then "" else account
      some (account, kv.2))

/-- Inner loop of Wallet.reindex over one account: register address[0]
of each entry; an empty entry raises, the bare except around the loop
swallows the exception and abandons the rest of that account while the
registrations already made stay. -/
def reindex_account (a2a : List (String × String)) (name : String) :
    List (List String) → List (String × String)
  | [] => a2a
  | addr :: rest =>
    match addr.head? with
    | none => a2a
    | some a => reindex_account (ridxInsert a2a a name) name rest

/-- Outer loop of Wallet.reindex over the parsed accounts. -/
def reindex_fold (a2a : List (String × String)) :
    List (String × AccountRecord) → List (String × String)
  | [] => a2a
  | (name, r) :: rest => reindex_fold (reindex_account a2a name r.addresses) rest

/-- Wallet.reindex: clear the in-memory reverse index, rebuild it from
the account files and persist it. -/
def reindex (s : WalletState) : WalletState :=
  save_rindex
    { s with address_to_account := reindex_fold [] (parse_accounts s.files) }

/-- The reverse index invariant of the spec: every key of the in-memory
reverse index is an address occurring in the address list of some account
file on disk. -/
def rindex_invariant (s : WalletState) : Bool :=
  s.address_to_account.all (fun p =>
    s.files.any (fun f => f.2.addresses.any (fun e => e.head? = some p.1)))

/-- The content of index.json. -/
structure PrimaryIndex where
  version : String
  encrypted : Bool
deriving Repr, DecidableEq

/-- Filesystem view seen by Wallet.__init__ and Wallet.load: whether the
wallet directory exists, the content of index.json (none when absent) and
the parse result of rindex.json (none when absent or unparsable). -/
structure InitFS where
  path_exists : Bool
  index_json : Option PrimaryIndex
  rindex_json : Option (List (String × String))
deriving Repr, DecidableEq

/-- Outcome of construction: the filesystem afterwards, self.index and
self.address_to_account. -/
structure InitResult where
  fs : InitFS
  index : Option PrimaryIndex
  address_to_account : List (String × String)
deriving Repr, DecidableEq

/-- The module version string of rpcwallet.py. -/
def wallet_version : String := "0.0.3"

/-- Wallet.load: when index.json is absent, the creation of the default
index and of the empty rindex is nested under the verbose flag (source
lines 64 to 73), so nothing is created and self.index stays None unless
verbose is set; when index.json is present it is read, and rindex.json is
read with a bare except that falls back to the empty mapping. -/
def wallet_load (verbose : Bool) (fs : InitFS) :
    InitFS × Option PrimaryIndex × List (String × String) :=
  match fs.index_json with
  | none =>
    if verbose then
      let idx : PrimaryIndex := { version := wallet_version, encrypted := false }
      ({ fs with index_json := some idx, rindex_json := some [] },
       some idx, [])
    else (fs, none, [])
  | some idx => (fs, some idx, fs.rindex_json.getD [])

/-- Wallet.__init__: the os.mkdir call for a missing wallet directory is
nested under the verbose flag (source lines 45 to 48), then load runs. -/
def wallet_init (verbose : Bool) (fs0 : InitFS) : InitResult :=
  let fs1 :=
    if !fs0.path_exists && verbose then { fs0 with path_exists := true }
    else fs0
  let out := wallet_load verbose fs1
  { fs := out.1, index := out.2.1, address_to_account := out.2.2 }

/-- The validity predicate of the claims: length 2 to 128, characters
from the base64 charset, excluding the slash character. -/
def valid_account_name (account : String) : Bool :=
  2 ≤ account.length && account.length ≤ 128 &&
    account.toList.all (fun c => isB64Char c && c ≠ Char.ofNat 47)

/-- State reached by Wallet._get_account when it creates a missing
account file with the key k. -/
def created_account_state (wpath account : String) (k : Key)
    (s : WalletState) : WalletState :=
  let res : AccountRecord := { encrypted := false, addresses := [k.as_list] }
  let s1 : WalletState :=
    { s with files := fsWrite s.files (get_account_fname wpath account) res }
  save_rindex
    { s1 with address_to_account :=
        ridxInsert s1.address_to_account k.address account }

/-- State reached by Wallet.get_new_address after appending the entry of
k2 to the loaded record r, saving it and registering the address. -/
def new_address_state (wpath account : String) (k2 : Key)
    (r : AccountRecord) (s : WalletState) : WalletState :=
  let r2 : AccountRecord := { r with addresses := r.addresses ++ [k2.as_list] }
  let sA : WalletState :=
    { s with files := fsWrite s.files (save_account_fname wpath account) r2 }
  save_rindex
    { sA with address_to_account :=
        ridxInsert sA.address_to_account k2.address account }

/-- A key used in concrete witness states. -/
def w_key : Key := { address := "K", private_key := "pk", public_key := "PK" }

/-- The empty wallet state used in concrete witnesses. -/
def w_state : WalletState :=
  { files := [], address_to_account := [], rindex_file := [] }

/-- A record used in concrete witnesses. -/
def w_record : AccountRecord := { encrypted := false, addresses := [] }

/-- Concrete state with one account file whose addresses list is empty. -/
def c9_state : WalletState :=
  { files := [("w/bo/bob.json", { encrypted := false, addresses := [] })],
    address_to_account := [], rindex_file := [] }

/-- Concrete state with one registered address A1 whose stored entry is
the list [A1, priv1, pub1] of the account record schema. -/
def c4_state : WalletState :=
  { files := [("w/ac/acct01.json",
      { encrypted := false, addresses := [["A1", "priv1", "pub1"]] })],
    address_to_account := [("A1", "acct01")],
    rindex_file := [("A1", "acct01")] }

/-- Key generated inside _get_account in the default-account scenario
(unused there, since the file exists). -/
def c7_k1 : Key := { address := "X", private_key := "px", public_key := "Px" }

/-- Fresh key whose address C is appended in the default-account
scenario. -/
def c7_k2 : Key := { address := "C", private_key := "pc", public_key := "Pc" }

/-- Start state of the default-account scenario: default.json holds the
address A, the sharded file de/default.json holds A and B (the state a
fresh wallet reaches after get_new_address on the literal account name
default), and the reverse index knows A and B. -/
def c7_s0 : WalletState :=
  { files :=
      [("w/default.json",
        { encrypted := false, addresses := [["A", "pa", "Pa"]] }),
       ("w/de/default.json",
        { encrypted := false,
          addresses := [["A", "pa", "Pa"], ["B", "pb", "Pb"]] })],
    address_to_account := [("A", ""), ("B", "default")],
    rindex_file := [("A", ""), ("B", "default")] }

/-- State after get_new_address on the name default from c7_s0: the
record read from default.json, extended with C, overwrites
de/default.json, so the address B vanishes from disk while the reverse
index still maps B to default. -/
def c7_s1 : WalletState :=
  { files :=
      [("w/default.json",
        { encrypted := false, addresses := [["A", "pa", "Pa"]] }),
       ("w/de/default.json",
        { encrypted := false,
          addresses := [["A", "pa", "Pa"], ["C", "pc", "Pc"]] })],
    address_to_account := [("A", ""), ("B", "default"), ("C", "default")],
    rindex_file := [("A", ""), ("B", "default"), ("C", "default")] }

/-- Bind of a successful Except computation. -/
theorem wbind_ok {α β : Type} (a : α) (f : α → Except WErr β) :
    (Except.ok a >>= f) = f a := rfl

/-- Bind of a failed Except computation. -/
theorem wbind_error {α β : Type} (e : WErr) (f : α → Except WErr β) :
    ((Except.error e : Except WErr α) >>= f) = Except.error e := rfl

/-- Updating the value of a key present in the association list makes
find? return the updated pair. -/
theorem find_map_update (m : List (String × String)) (k v : String)
    (h : m.any (fun kv => kv.1 = k) = true) :
    (m.map (fun kv => if kv.1 = k then (k, v) else kv)).find?
      (fun kv => kv.1 = k) = some (k, v) := by
  induction m with
  | nil => simp at h
  | cons a tl ih =>
    by_cases ha : a.1 = k
    · simp [List.find?, ha]
    · simp only [List.any_cons, Bool.or_eq_true, decide_eq_true_eq] at h
      rcases h with h | h
      · exact absurd h ha
      · simp [List.find?, ha, ih h]

/-- Appending a fresh key to the association list makes find? return the
appended pair. -/
theorem find_append_fresh (m : List (String × String)) (k v : String)
    (h : m.any (fun kv => kv.1 = k) = false) :
    (m ++ [(k, v)]).find? (fun kv => kv.1 = k) = some (k, v) := by
  induction m with
  | nil => simp [List.find?]
  | cons a tl ih =>
    simp only [List.any_cons, Bool.or_eq_false_iff,
      decide_eq_false_iff_not] at h
    rcases h with ⟨ha, htl⟩
    simp [List.find?, ha, ih htl]

/-- Python dict assignment followed by lookup of the same key yields the
assigned value. -/
theorem ridxLookup_insert_self (m : List (String × String)) (k v : String) :
    ridxLookup (ridxInsert m k v) k = some v := by
  unfold ridxLookup ridxInsert
  cases h : m.any (fun kv => kv.1 = k) with
  | true => simp [h, find_map_update m k v h]
  | false => simp [h, find_append_fresh m k v h]

/-- Wallet.get_account resolves a freshly assigned address to the
assigned account name. -/
theorem get_account_insert_self (m : List (String × String)) (k v : String) :
    get_account (ridxInsert m k v) k = Except.ok v := by
  unfold get_account
  rw [ridxLookup_insert_self]

/-- A name valid in the sense of the claims passes
Wallet._check_account_name. -/
theorem check_ok_of_valid (account : String)
    (h : valid_account_name account = true) :
    check_account_name account = Except.ok () := by
  unfold valid_account_name at h
  simp only [Bool.and_eq_true, List.all_eq_true, decide_eq_true_eq] at h
  obtain ⟨⟨h2, h128⟩, hchars⟩ := h
  have hne : account ≠ "" := by
    intro he
    rw [he] at h2
    simp at h2
  unfold check_account_name
  rw [if_neg hne]
  have hlen : (account.length < 2 || 128 < account.length) = false := by
    simp only [Bool.or_eq_false_iff, decide_eq_false_iff_not, not_lt]
    omega
  rw [hlen]
  have hany : (account.toList.any (fun c => !(isB64Char c))) = false := by
    rw [List.any_eq_false]
    intro c hc
    simp [((hchars c hc).1)]
  rw [hany]
  simp

/-- A name invalid in the sense of the claims (length one, length above
128, or containing a character outside the base64 class) makes
Wallet._check_account_name raise InvalidAccountName. -/
theorem check_fails_of_invalid (account : String)
    (h : account.length = 1 ∨ 128 < account.length ∨
         ∃ c ∈ account.toList, isB64Char c = false) :
    check_account_name account = Except.error WErr.InvalidAccountName := by
  have hne : account ≠ "" := by
    intro he
    rw [he] at h
    rcases h with h | h | h
    · exact absurd h (by decide)
    · exact absurd h (by decide)
    · obtain ⟨c, hc, _⟩ := h
      rw [show ("" : String).toList = [] from rfl] at hc
      exact absurd hc (List.not_mem_nil c)
  unfold check_account_name
  rw [if_neg hne]
  cases hlen : (account.length < 2 || 128 < account.length) with
  | true => simp
  | false =>
    simp only [Bool.or_eq_false_iff, decide_eq_false_iff_not, not_lt] at hlen
    obtain ⟨hl2, hl128⟩ := hlen
    rcases h with h | h | h
    · omega
    · omega
    · obtain ⟨c, hc, hbad⟩ := h
      have hany : (account.toList.any (fun c => !(isB64Char c))) = true := by
        rw [List.any_eq_true]
        exact ⟨c, hc, by simp [hbad]⟩
      rw [hany]
      simp

/-- A failing name check aborts Wallet._get_account with the raised
error before any filesystem access. -/
theorem _get_account_error (wpath : String) (k : Key) (account : String)
    (s : WalletState) (e : WErr)
    (h : check_account_name account = Except.error e) :
    _get_account wpath k account s = Except.error e := by
  unfold _get_account
  rw [h]
  rfl

/-- A passing name check and a present file make Wallet._get_account
return the parsed record with the state untouched. -/
theorem _get_account_found (wpath : String) (k : Key) (account : String)
    (s : WalletState) (r : AccountRecord)
    (hc : check_account_name account = Except.ok ())
    (hf : fsLookup s.files (get_account_fname wpath account) = some r) :
    _get_account wpath k account s = Except.ok (r, s) := by
  unfold _get_account
  rw [hc, wbind_ok]
  simp only [hf]

/-- A passing name check and an absent file make Wallet._get_account
create the account and return the creation state. -/
theorem _get_account_created (wpath : String) (k : Key) (account : String)
    (s : WalletState)
    (hc : check_account_name account = Except.ok ())
    (hf : fsLookup s.files (get_account_fname wpath account) = none) :
    _get_account wpath k account s =
      Except.ok ({ encrypted := false, addresses := [k.as_list] },
        created_account_state wpath account k s) := by
  unfold _get_account created_account_state
  rw [hc, wbind_ok]
  simp only [hf]

/-- A passing name check makes Wallet._save_account overwrite the file
at the save path. -/
theorem _save_account_ok (wpath : String) (r : AccountRecord)
    (account : String) (s : WalletState)
    (hc : check_account_name account = Except.ok ()) :
    _save_account wpath r account s =
      Except.ok
        { s with files := fsWrite s.files (save_account_fname wpath account) r } := by
  unfold _save_account
  rw [hc, wbind_ok]

/-- C1: for every valid account name (length 2 to 128, base64 charset
without the slash), get_new_address succeeds, returns the address of the
freshly generated key, and get_account on that address returns the same
account name. -/
theorem create_address_then_resolve_account (wpath account : String)
    (k1 k2 : Key) (s : WalletState)
    (hvalid : valid_account_name account = true)
    (hfresh : ridxLookup s.address_to_account k2.address = none) :
    ∃ s1, get_new_address wpath k1 k2 account s = Except.ok (k2.address, s1) ∧
      get_account s1.address_to_account k2.address = Except.ok account := by
  have hc := check_ok_of_valid account hvalid
  cases hf : fsLookup s.files (get_account_fname wpath account) with
  | some r =>
    refine ⟨new_address_state wpath account k2 r s, ?_, ?_⟩
    · simp only [get_new_address, new_address_state,
        _get_account_found wpath k1 account s r hc hf, wbind_ok,
        _save_account_ok wpath _ account s hc]
    · exact get_account_insert_self _ k2.address account
  | none =>
    refine ⟨new_address_state wpath account k2
      { encrypted := false, addresses := [k1.as_list] }
      (created_account_state wpath account k1 s), ?_, ?_⟩
    · simp only [get_new_address, new_address_state,
        _get_account_created wpath k1 account s hc hf, wbind_ok,
        _save_account_ok wpath _ account _ hc]
    · exact get_account_insert_self _ k2.address account

/-- Witness for C1 at the account name alice on an empty store. -/
theorem create_address_then_resolve_account_witness :
    valid_account_name "alice" = true ∧
    (∃ s1, get_new_address "w" w_key
        { address := "A2", private_key := "p2", public_key := "P2" }
        "alice" w_state = Except.ok ("A2", s1) ∧
      get_account s1.address_to_account "A2" = Except.ok "alice") :=
  ⟨by decide,
    create_address_then_resolve_account "w" "alice" w_key
      { address := "A2", private_key := "p2", public_key := "P2" }
      w_state (by decide) (by decide)⟩

/-- C2: on a path that does not exist, construction with the default
verbose equal to false creates neither the directory nor index.json nor
rindex.json and leaves self.index unset, because os.mkdir and the index
creation are nested under the verbose flag; only with verbose set does
construction create the directory, the primary index with version and
encrypted false, and the empty persisted reverse index.  This refutes
the claim that creation happens regardless of the verbose flag. -/
theorem wallet_init_nonverbose_creates_nothing :
    wallet_init false
        { path_exists := false, index_json := none, rindex_json := none } =
      { fs := { path_exists := false, index_json := none, rindex_json := none },
        index := none, address_to_account := [] } ∧
    wallet_init true
        { path_exists := false, index_json := none, rindex_json := none } =
      { fs := { path_exists := true,
                index_json := some { version := wallet_version, encrypted := false },
                rindex_json := some [] },
        index := some { version := wallet_version, encrypted := false },
        address_to_account := [] } :=
  ⟨rfl, rfl⟩

/-- C3: the load path of the literal account name default is
default.json at the store root, but the save path of the same name is
the sharded file de/default.json, a different file, while only the empty
name saves to default.json.  This refutes the claim that reads and
writes under the two names always act on one single file. -/
theorem save_account_default_path_mismatch :
    get_account_fname ".wallet" "" = ".wallet/default.json" ∧
    get_account_fname ".wallet" "default" = ".wallet/default.json" ∧
    save_account_fname ".wallet" "" = ".wallet/default.json" ∧
    save_account_fname ".wallet" "default" = ".wallet/de/default.json" := by
  refine ⟨rfl, by decide, rfl, by decide⟩

/-- C4: for the registered address A1 whose stored entry is the list
[A1, priv1, pub1] of the account record schema, dump_privkey returns
pub1, the element at the public key position, not the private key
priv1. -/
theorem dump_privkey_returns_public_key :
    dump_privkey "w" w_key "A1" c4_state = Except.ok ("pub1", c4_state) ∧
    ("pub1" : String) ≠ "priv1" :=
  ⟨rfl, by decide⟩

/-- C5: every account name of length one, of length above 128, or with a
character outside the base64 class makes each account taking operation
(get_account_address, get_new_address, get_addresses_by_account and the
account save) fail with InvalidAccountName; the check is sequenced
before every filesystem access, so an error result carries no successor
state and no write happens. -/
theorem invalid_account_name_rejected (account : String)
    (h : account.length = 1 ∨ 128 < account.length ∨
         ∃ c ∈ account.toList, isB64Char c = false)
    (wpath : String) (k1 k2 : Key) (r : AccountRecord) (s : WalletState) :
    get_account_address wpath k1 account s =
      Except.error WErr.InvalidAccountName ∧
    get_new_address wpath k1 k2 account s =
      Except.error WErr.InvalidAccountName ∧
    get_addresses_by_account wpath k1 account s =
      Except.error WErr.InvalidAccountName ∧
    _save_account wpath r account s =
      Except.error WErr.InvalidAccountName := by
  have hc := check_fails_of_invalid account h
  refine ⟨?_, ?_, ?_, ?_⟩
  · unfold get_account_address
    rw [_get_account_error wpath k1 account s _ hc]
    rfl
  · unfold get_new_address
    rw [_get_account_error wpath k1 account s _ hc]
    rfl
  · unfold get_addresses_by_account
    rw [_get_account_error wpath k1 account s _ hc]
    rfl
  · unfold _save_account
    rw [hc]
    rfl

/-- Witness for C5 at the length one name a on an empty store. -/
theorem invalid_account_name_rejected_witness :
    get_account_address "w" w_key "a" w_state =
      Except.error WErr.InvalidAccountName ∧
    get_new_address "w" w_key w_key "a" w_state =
      Except.error WErr.InvalidAccountName ∧
    get_addresses_by_account "w" w_key "a" w_state =
      Except.error WErr.InvalidAccountName ∧
    _save_account "w" w_record "a" w_state =
      Except.error WErr.InvalidAccountName :=
  invalid_account_name_rejected "a" (Or.inl (by decide)) "w" w_key w_key
    w_record w_state

/-- C6: the name check accepts the account name ab/cd although it
contains a slash, because the regex character class of the source lists
the slash as legal, and the derived file path gains an extra directory
level, escaping the two character shard layout.  This refutes the claim
that validation rejects names containing a slash. -/
theorem slash_account_name_accepted :
    check_account_name "ab/cd" = Except.ok () ∧
    get_account_fname "w" "ab/cd" = "w/ab/ab/cd.json" :=
  ⟨rfl, by decide⟩

/-- C7: the reverse index invariant is not preserved by
get_new_address on the literal account name default: from the invariant
satisfying state c7_s0 (reachable by two calls of get_new_address on
default from a fresh store), the operation reads default.json but saves
to de/default.json, erasing the address B from disk while the reverse
index still maps B, so the invariant fails afterwards. -/
theorem get_new_address_default_breaks_rindex_invariant :
    rindex_invariant c7_s0 = true ∧
    get_new_address "w" c7_k1 c7_k2 "default" c7_s0 =
      Except.ok ("C", c7_s1) ∧
    rindex_invariant c7_s1 = false :=
  ⟨by decide, rfl, by decide⟩

/-- C8: reindex is a function of the account files alone, it does not
modify them, and it overwrites the in-memory mapping and the persisted
rindex.json with the rebuilt mapping, so running it twice in a row on a
fixed store yields the identical state, in particular the identical
persisted reverse index document, both times. -/
theorem reindex_idempotent (s : WalletState) :
    reindex (reindex s) = reindex s := rfl

/-- Witness for C8 at the concrete two file store c7_s0. -/
theorem reindex_idempotent_witness :
    reindex (reindex c7_s0) = reindex c7_s0 :=
  reindex_idempotent c7_s0

/-- C9: get_account_address evaluates addresses[0][0] of the stored
record, so on a record whose addresses list is empty it fails with the
uncaught IndexError, which is none of the defined error kinds of the
store, and on a record whose first entry starts with an address it
returns that first address. -/
theorem get_account_address_unguarded_head (wpath : String) (k : Key)
    (account : String) (s : WalletState) (e : Bool) (a : String)
    (entry : List String) (rest : List (List String))
    (hok : check_account_name account = Except.ok ()) :
    (fsLookup s.files (get_account_fname wpath account) =
        some { encrypted := e, addresses := [] } →
      get_account_address wpath k account s = Except.error WErr.IndexError) ∧
    (fsLookup s.files (get_account_fname wpath account) =
        some { encrypted := e, addresses := (a :: entry) :: rest } →
      get_account_address wpath k account s = Except.ok (a, s)) ∧
    WErr.IndexError ≠ WErr.InvalidAccountName ∧
    WErr.IndexError ≠ WErr.InvalidPath ∧
    WErr.IndexError ≠ WErr.UnknownnAddress := by
  refine ⟨?_, ?_, by decide, by decide, by decide⟩
  · intro hf
    unfold get_account_address
    rw [_get_account_found wpath k account s _ hok hf, wbind_ok]
    rfl
  · intro hf
    unfold get_account_address
    rw [_get_account_found wpath k account s _ hok hf, wbind_ok]
    rfl

/-- Witness for C9 at a store holding bob with an empty addresses
list. -/
theorem get_account_address_unguarded_head_witness :
    get_account_address "w" w_key "bob" c9_state =
      Except.error WErr.IndexError :=
  (get_account_address_unguarded_head "w" w_key "bob" c9_state false "x" [] []
    rfl).1 rfl

/-- C10: when index.json is present but rindex.json is absent or
unparsable, load succeeds, reads the primary index, and falls back to
the empty reverse index, after which get_account fails with
UnknownnAddress for every address whatsoever. -/
theorem load_missing_rindex_resolves_nothing (verbose pe : Bool)
    (idx : PrimaryIndex) (address : String) :
    (wallet_load verbose
        { path_exists := pe, index_json := some idx, rindex_json := none }).2.2
      = [] ∧
    (wallet_load verbose
        { path_exists := pe, index_json := some idx, rindex_json := none }).2.1
      = some idx ∧
    get_account
      (wallet_load verbose
        { path_exists := pe, index_json := some idx, rindex_json := none }).2.2
      address = Except.error WErr.UnknownnAddress := by
  exact ⟨rfl, rfl, rfl⟩

end RPCWallet
